import Mathlib

/-!
Verification of the resilient remote-call layer of PythonDependencyInjector:
the retry policy built in `src/api_client.py` (`RetryPolicy.build`,
`RetryPolicy.no_retry`, the reason resolvers and the before-sleep hooks),
the per-key circuit breakers of `src/s3_client.py` and
`src/custom_api_client.py`, the breaker-state gauges, the response handler
`ApiClient._handle_response` and `RelationalDbClient.fetch_one` of
`src/db_client.py`.

The Python code delegates the retry loop to the `tenacity` library and the
breaker state machine to `pybreaker`.  The tenacity combinators used by the
repository (`Retrying.__call__`/`BaseRetrying.iter`, `stop_after_attempt`,
`wait_exponential`, `retry_if_exception_type`, `retry_if_result`, `retry_any`,
`retry_never`, `Future.result`) are embedded below from the library's
sources; the pybreaker state machine is modelled from the specification's
state-transition rules (see the doc comments on those definitions).
-/

namespace PyDI

/-- A Python exception value, abstracted to the attributes the repository
inspects: its class name (`type(exc).__name__`) and its position in the
`requests` exception hierarchy (`requests.RequestException`,
`requests.Timeout`, `requests.ConnectionError`). -/
structure PyExc where
  typeName : String
  isRequestException : Bool
  isTimeout : Bool
  isConnectionError : Bool
deriving DecidableEq, Repr

/-- The `requests.Timeout` exception (a `RequestException`). -/
def requestsTimeout : PyExc := ⟨"Timeout", true, true, false⟩

/-- The `requests.ConnectionError` exception (a `RequestException`). -/
def requestsConnectionError : PyExc := ⟨"ConnectionError", true, false, true⟩

/-- The `requests.HTTPError` exception: a `RequestException` that is neither a `Timeout`
nor a `ConnectionError`. -/
def requestsHTTPError : PyExc := ⟨"HTTPError", true, false, false⟩

/-- A plain `ValueError`, outside the `requests` hierarchy. -/
def valueErrorExc : PyExc := ⟨"ValueError", false, false, false⟩

/-- The parsed JSON document a `requests.Response.json()` call yields,
abstracted to the field the repository reads (`.get("error_code", "")`)
plus an opaque rendering of the rest of the document. -/
structure JsonBody where
  errorCode : Option String
  raw : String
deriving DecidableEq, Repr

/-- A `requests.Response`, abstracted to the attributes the repository
reads: `status_code`, the `Content-Type` header (`headers.get` yields the
default when the header is absent), whether a `json` attribute exists
(`hasattr(result, "json")`), the outcome of `.json()` (`none` models the
call raising `ValueError`), and `.text`. -/
structure HttpResponse where
  status_code : Nat
  contentTypeHeader : Option String := none
  hasJsonAttr : Bool := true
  jsonParse : Option JsonBody := none
  text : String := ""
deriving DecidableEq, Repr

/-- Truthiness of a response: `requests.Response.__bool__` is `self.ok`: truthy iff the status code
is below 400. -/
def HttpResponse.truthy (r : HttpResponse) : Bool := r.status_code < 400

/-- A completed tenacity `Future` (one attempt's outcome): either the
attempt raised (`failed`, `Future.failed` is true) or it returned a Python
value, possibly `None` (`succeeded`). -/
inductive FAttempt where
  | failed (e : PyExc)
  | succeeded (v : Option HttpResponse)
deriving DecidableEq, Repr

/-- Python `Future.result()` (tenacity inherits `concurrent.futures.Future`): the
stored value for a completed successful attempt, and it RE-RAISES the
stored exception for a failed one. -/
def futureResult : FAttempt → Except PyExc (Option HttpResponse)
  | .failed e => .error e
  | .succeeded v => .ok v

/-- Python `Future.exception()`: the stored exception, or `None`. -/
def futureException : FAttempt → Option PyExc
  | .failed e => some e
  | .succeeded _ => none

/-! ## `RetryPolicy._default_reason_resolver` (src/api_client.py lines 108-125)

```python
exc = retry_state.outcome.exception()
result = retry_state.outcome.result() if retry_state.outcome else None
if exc: ...
```
The second line calls `outcome.result()` unconditionally (`retry_state.outcome`
is a completed `Future`, hence truthy), which re-raises the stored exception
whenever the attempt failed, before the `if exc:` branch can run. -/

/-- Embedding of `RetryPolicy._default_reason_resolver`.  An `Except.error` value models
the Python function raising. -/
def default_reason_resolver (o : FAttempt) : Except PyExc String :=
  let exc := futureException o
  match futureResult o with
  | .error e => .error e
  | .ok result =>
    match exc with
    | some e =>
        -- dead code in the source: the `result()` call has already re-raised `e`
        if e.isTimeout then .ok "timeout"
        else if e.isConnectionError then .ok "connection_error"
        else .ok e.typeName
    | none =>
        match result with
        | some r =>
            if 500 ≤ r.status_code then .ok "5xx"
            else if r.status_code = 429 then .ok "rate_limit"
            else .ok ("status_" ++ toString r.status_code)
        | none => .ok "unknown"

/-- Embedding of `custom_reason_classifier` (src/api_client.py lines 144-152):
`result = retry_state.outcome.result()` (re-raises on failed outcomes),
then `if result and hasattr(result, "json")`, where a `Response` is truthy
iff its status code is below 400; `result.json().get("error_code", "")`
inside `try`, any exception from `.json()` falls through to the default
resolver. -/
def custom_reason_classifier (o : FAttempt) : Except PyExc String :=
  match futureResult o with
  | .error e => .error e
  | .ok result =>
    match result with
    | some r =>
        if r.truthy && r.hasJsonAttr then
          match r.jsonParse with
          | some j => .ok ("app_error_" ++ j.errorCode.getD "")
          | none => default_reason_resolver o
        else default_reason_resolver o
    | none => default_reason_resolver o

/-- The reason computed by `CustomApiClient.handle_retry_error`
(src/custom_api_client.py lines 141-160): it checks `last_attempt.failed`
before touching `result`, lower-cases the exception's type name, and uses
`getattr(result, "status_code", "unknown")` on the result branch. -/
def handle_retry_error_reason (last : FAttempt) : String :=
  match last with
  | .failed e => String.mk (e.typeName.toList.map Char.toLower)
  | .succeeded v =>
      match v with
      | some r => "status_" ++ toString r.status_code
      | none => "status_" ++ "unknown"

/-! ## The retry predicate of `RetryPolicy.build` (src/api_client.py lines 53-69)

```python
retry=(retry_if_exception_type(requests.RequestException) |
       retry_if_result(lambda response: response.status_code >= 500))
```
`retry_any` evaluates its members left to right and short-circuits
(`any(r(retry_state) for r in self.retries)`). -/

/-- Embedding of tenacity `retry_if_exception_type(requests.RequestException)`: true on a
failed outcome whose exception is an instance of `RequestException`,
false on a successful outcome. -/
def retry_if_exception_type_RequestException : FAttempt → Bool
  | .failed e => e.isRequestException
  | .succeeded _ => false

/-- Embedding of tenacity `retry_if_result(lambda response: response.status_code >= 500)`:
false on a failed outcome; on a successful one it applies the lambda to the
returned value, which raises `AttributeError` when that value is `None`. -/
def retry_if_result_ge500 : FAttempt → Except PyExc Bool
  | .failed _ => .ok false
  | .succeeded (some r) => .ok (decide (500 ≤ r.status_code))
  | .succeeded none => .error ⟨"AttributeError", false, false, false⟩

/-- The composed retry condition of `RetryPolicy.build` (the two conditions
above joined by tenacity `retry_any`, short-circuiting). -/
def build_retry_condition (o : FAttempt) : Except PyExc Bool :=
  if retry_if_exception_type_RequestException o then .ok true
  else retry_if_result_ge500 o

/-! ## The before-sleep hook chain of `RetryPolicy.build`

`before_sleep=self._chain_hooks(before_sleep_log(...), self._log_retry_attempt_hook(...),
self._custom_retry_metrics_hook(...))`; the chained hook calls each in order. -/

/-- Embedding of the hook returned by `RetryPolicy._log_retry_attempt_hook` (src/api_client.py
lines 71-106), reduced to its control flow: it reads
`retry_state.outcome.exception()` and then
`retry_state.outcome.result() if retry_state.outcome else None`; the call to
`result()` re-raises the stored exception on failed outcomes.  The remaining
body only formats and logs. -/
def log_retry_attempt_hook (o : FAttempt) : Except PyExc Unit :=
  let _exc := futureException o
  match futureResult o with
  | .error e => .error e
  | .ok _result => .ok ()

/-- Embedding of the hook returned by `RetryPolicy._custom_retry_metrics_hook` (src/api_client.py
lines 127-133) with the default reason resolver: it computes
`self.reason_resolver(retry_state)` (which re-raises on failed outcomes,
see `default_reason_resolver`) and then performs exactly one
`RETRY_COUNTER...inc()` and one `RETRY_DURATION...observe(...)`.  The
returned number counts the `RETRY_COUNTER` increments performed. -/
def custom_retry_metrics_hook (o : FAttempt) : Except PyExc Nat :=
  match default_reason_resolver o with
  | .error e => .error e
  | .ok _reason => .ok 1

/-- The chained before-sleep hook of `RetryPolicy.build`: tenacity's
`before_sleep_log` (guards on `outcome.failed`, only logs, never raises),
then `_log_retry_attempt_hook`, then `_custom_retry_metrics_hook`. -/
def build_before_sleep (o : FAttempt) : Except PyExc Nat :=
  match log_retry_attempt_hook o with
  | .error e => .error e
  | .ok _ => custom_retry_metrics_hook o

/-- Embedding of tenacity `wait_exponential(multiplier, min, max)` with the default
`exp_base = 2` at a given `attempt_number` (the library computes
`max(max(0, self.min), min(self.multiplier * self.exp_base ** (attempt_number - 1), self.max))`).
Numbers are modelled as rationals. -/
def wait_exponential (multiplier minWait maxWait : ℚ) (attemptNumber : Nat) : ℚ :=
  max (max 0 minWait) (min (multiplier * 2 ^ (attemptNumber - 1)) maxWait)

/-- What a `Retrying(...)` call produces: a normally returned value, a
propagated (raised) exception, or a raised tenacity `RetryError` wrapping
the last attempt (with the number of attempts made). -/
inductive CallResult where
  | value (v : Option HttpResponse)
  | raised (e : PyExc)
  | retryError (last : FAttempt) (attemptsMade : Nat)
deriving DecidableEq, Repr

/-- The observable trace of one `Retrying(...)` call: its final result, how
many times the wrapped attempt function was invoked, how many
`RETRY_COUNTER` increments the before-sleep chain performed, and the
backoff delays computed by the wait strategy, tagged with the attempt
number after which each was scheduled. -/
structure RunTrace where
  result : CallResult
  invocations : Nat
  retryIncrements : Nat
  delays : List (Nat × ℚ)
deriving DecidableEq, Repr

/-- One round of `Retrying.__call__`/`BaseRetrying.iter` (tenacity, with
`reraise=True`, no `retry_error_callback`, no `before` hook), starting at
attempt number `k` with `remaining = max_attempt_number - k` further
attempts allowed by `stop_after_attempt`:
run the attempt; if the retry condition is false, return `fut.result()`
(which re-raises a stored exception); if it is true but the stop condition
`attempt_number >= max_attempt_number` holds (i.e. `remaining = 0`),
raise `RetryError(fut).reraise()` — the stored exception for a failed
outcome, the `RetryError` itself for a successful one; otherwise compute
the wait, run the before-sleep chain (whose exceptions propagate), sleep,
and recurse at `k + 1`. -/
def runRetryGo (p : FAttempt → Except PyExc Bool) (w : Nat → ℚ)
    (bs : FAttempt → Except PyExc Nat) (fn : Nat → FAttempt) :
    Nat → Nat → RunTrace
  | k, 0 =>
    let o := fn k
    match p o with
    | .error e => ⟨.raised e, 1, 0, []⟩
    | .ok false =>
        match o with
        | .failed e => ⟨.raised e, 1, 0, []⟩
        | .succeeded v => ⟨.value v, 1, 0, []⟩
    | .ok true =>
        match o with
        | .failed e => ⟨.raised e, 1, 0, []⟩
        | .succeeded _ => ⟨.retryError o k, 1, 0, []⟩
  | k, r + 1 =>
    let o := fn k
    match p o with
    | .error e => ⟨.raised e, 1, 0, []⟩
    | .ok false =>
        match o with
        | .failed e => ⟨.raised e, 1, 0, []⟩
        | .succeeded v => ⟨.value v, 1, 0, []⟩
    | .ok true =>
        let d := w k
        match bs o with
        | .error e => ⟨.raised e, 1, 0, [(k, d)]⟩
        | .ok incs =>
            let rest := runRetryGo p w bs fn (k + 1) r
            ⟨rest.result, rest.invocations + 1, rest.retryIncrements + incs,
              (k, d) :: rest.delays⟩

/-- A full `Retrying(...)` call with `stop_after_attempt(stopN)`: attempts
are numbered from 1 and `stop_after_attempt` stops once
`attempt_number >= stopN`, so `stopN - 1` further attempts remain after the
first. -/
def tenacityCall (p : FAttempt → Except PyExc Bool) (stopN : Nat) (w : Nat → ℚ)
    (bs : FAttempt → Except PyExc Nat) (fn : Nat → FAttempt) : RunTrace :=
  runRetryGo p w bs fn 1 (stopN - 1)

/-- A call through the `Retrying` object built by `RetryPolicy.build`
(src/api_client.py lines 53-69): `stop_after_attempt(self.attempts)`,
`wait_exponential(multiplier=self.multiplier, min=self.min_wait, max=self.max_wait)`,
the composed retry condition, the chained before-sleep hooks, `reraise=True`. -/
def RetryPolicy_build_call (attempts : Nat) (multiplier minWait maxWait : ℚ)
    (fn : Nat → FAttempt) : RunTrace :=
  tenacityCall build_retry_condition attempts
    (wait_exponential multiplier minWait maxWait) build_before_sleep fn

/-- A call through the `Retrying` object built by `RetryPolicy.no_retry`
(src/api_client.py lines 43-51): `stop_after_attempt(1)`, `retry_never`
(constantly false), no wait strategy (sleep 0.0), no before-sleep hook
(never invoked since the retry condition is never true), `reraise=True`. -/
def RetryPolicy_no_retry_call (fn : Nat → FAttempt) : RunTrace :=
  tenacityCall (fun _ => .ok false) 1 (fun _ => 0) (fun _ => .ok 0) fn

/-! ## The circuit breaker

The repository delegates the breaker to `pybreaker.CircuitBreaker`
(`fail_max=3`, `reset_timeout=300` in both `S3Client._get_breaker` and
`CustomApiClient._get_breaker`); the library itself is not part of the
repository, so its state machine is modelled from the specification. -/

/-- The breaker states (pybreaker `STATE_CLOSED`, `STATE_OPEN`,
`STATE_HALF_OPEN`). -/
inductive BreakerState where
  | closed
  | opened
  | halfOpen
deriving DecidableEq, Repr

/-- Modelled from the spec: the per-key `pybreaker.CircuitBreaker` record —
`{state, consecutive_failures, fail_max, reset_timeout, opened_at}`
(spec sections 3 and 4.3).  Timestamps and the cooldown are integers (the
state machine only compares elapsed time against the cooldown; no claim
involves fractional instants). -/
structure Breaker where
  state : BreakerState
  counter : Nat
  failMax : Nat
  resetTimeout : ℤ
  openedAt : Option ℤ
deriving DecidableEq, Repr

/-- A fresh breaker: Closed with zero consecutive failures. -/
def Breaker.new (failMax : Nat) (resetTimeout : ℤ) : Breaker :=
  ⟨.closed, 0, failMax, resetTimeout, none⟩

/-- What a guarded call yields: the attempt result, the attempt exception
re-raised, or the fast-fail `CircuitBreakerError` (spec: `BreakerOpen`). -/
inductive GuardedResult where
  | ok (v : Option HttpResponse)
  | err (e : PyExc)
  | breakerOpen
deriving DecidableEq, Repr

/-- The full outcome of one call through a breaker: the updated breaker,
whether the wrapped attempt function was actually invoked, the call result,
and the state transitions fired (old state, new state) in order — these are
what a `CircuitBreakerListener.state_change` receives. -/
structure BreakerStep where
  breaker : Breaker
  invoked : Bool
  result : GuardedResult
  events : List (BreakerState × BreakerState)
deriving DecidableEq, Repr

/-- Modelled from the spec: one call through a `pybreaker.CircuitBreaker`
at time `now`, where `att` is the outcome the wrapped attempt function
would produce if invoked (spec section 4.3).  Closed: the attempt runs; a
success resets `consecutive_failures`, a failure increments it and
reaching `fail_max` opens the breaker with `opened_at = now`.  Open: every
call inside the cooldown window is rejected without invoking the attempt;
once `reset_timeout` has elapsed the next call moves to HalfOpen and is
admitted as the trial.  HalfOpen: the trial attempt runs; success closes
the breaker and resets the counter, failure reopens it and restarts the
cooldown clock. -/
def breakerCall (b : Breaker) (now : ℤ) (att : Except PyExc (Option HttpResponse)) :
    BreakerStep :=
  match b.state with
  | .closed =>
      match att with
      | .ok v => ⟨{ b with counter := 0 }, true, .ok v, []⟩
      | .error e =>
          let c := b.counter + 1
          if b.failMax ≤ c then
            ⟨{ b with state := .opened, counter := c, openedAt := some now },
              true, .err e, [(.closed, .opened)]⟩
          else
            ⟨{ b with counter := c }, true, .err e, []⟩
  | .opened =>
      match b.openedAt with
      | some t0 =>
          if now - t0 < b.resetTimeout then
            ⟨b, false, .breakerOpen, []⟩
          else
            match att with
            | .ok v =>
                ⟨{ b with state := .closed, counter := 0, openedAt := none },
                  true, .ok v, [(.opened, .halfOpen), (.halfOpen, .closed)]⟩
            | .error e =>
                ⟨{ b with state := .opened, openedAt := some now },
                  true, .err e, [(.opened, .halfOpen), (.halfOpen, .opened)]⟩
      | none => ⟨b, false, .breakerOpen, []⟩
  | .halfOpen =>
      match att with
      | .ok v =>
          ⟨{ b with state := .closed, counter := 0, openedAt := none },
            true, .ok v, [(.halfOpen, .closed)]⟩
      | .error e =>
          ⟨{ b with state := .opened, openedAt := some now },
            true, .err e, [(.halfOpen, .opened)]⟩

/-- Apply a sequence of timed attempts through one breaker, keeping only
the final breaker (used to fold failure streaks). -/
def breakerFold (b : Breaker) (calls : List (ℤ × Except PyExc (Option HttpResponse))) :
    Breaker :=
  calls.foldl (fun acc c => (breakerCall acc c.1 c.2).breaker) b

/-- Lookup of a key in the breaker dict (first match). -/
def find_breaker : List (String × Breaker) → String → Option Breaker
  | [], _ => none
  | p :: rest, key => if p.1 = key then some p.2 else find_breaker rest key

/-- Embedding of `S3Client._get_breaker` / `CustomApiClient._get_breaker`: the
per-key registry (`self._breakers` / `self.breakers`, a dict) creates a
breaker with `fail_max=3`, `reset_timeout=300` on first use of a key and
reuses it afterwards. -/
def get_breaker (breakers : List (String × Breaker)) (key : String) :
    Breaker × List (String × Breaker) :=
  match find_breaker breakers key with
  | some b => (b, breakers)
  | none => (Breaker.new 3 300, breakers ++ [(key, Breaker.new 3 300)])

/-- Store the updated breaker for a key back into the registry (the
object in the dict is mutated in place in Python). -/
def set_breaker (breakers : List (String × Breaker)) (key : String) (b : Breaker) :
    List (String × Breaker) :=
  breakers.map (fun p => if p.1 = key then (key, b) else p)

/-- Embedding of one guarded call of `S3Client._observe` / `CustomApiClient._call_with_metrics`:
fetch (or create) the breaker for the key, run the call through it, and
keep the mutated breaker. -/
def call_with_breaker (breakers : List (String × Breaker)) (key : String) (now : ℤ)
    (att : Except PyExc (Option HttpResponse)) :
    List (String × Breaker) × BreakerStep :=
  let (b, bs) := get_breaker breakers key
  let step := breakerCall b now att
  (set_breaker bs key step.breaker, step)

/-- Validity of an event chain: the transitions fired by a call link the
state before the call to the state after it, each event starting where the
previous one ended. -/
def eventsChain : BreakerState → List (BreakerState × BreakerState) → BreakerState → Bool
  | s, [], s' => s = s'
  | s, (a, b) :: rest, s' => s = a && eventsChain b rest s'

/-! ## Breaker-state gauges

pybreaker invokes `CircuitBreakerListener.state_change(cb, old_state, new_state)`
with `CircuitBreakerState` objects, whose `.name` is one of the string
constants `STATE_CLOSED = "closed"`, `STATE_OPEN = "open"`,
`STATE_HALF_OPEN = "half-open"`. -/

/-- A Python value as used in the listeners' dict lookups: either a string
or a `CircuitBreakerState` object.  A state object never compares equal to
a string (no custom `__eq__`), which the constructor distinction captures. -/
inductive PyValue where
  | pyStr (s : String)
  | pyStateObj (st : BreakerState)
deriving DecidableEq, Repr

/-- Python `dict.get(key, default)` over a literal dict, as first-match
lookup. -/
def pyDictGet (entries : List (PyValue × Int)) (key : PyValue) (dflt : Int) : Int :=
  match entries with
  | [] => dflt
  | (k, v) :: rest => if k = key then v else pyDictGet rest key dflt

/-- The `.name` of a pybreaker `CircuitBreakerState`: the constants
`STATE_CLOSED`, `STATE_OPEN`, `STATE_HALF_OPEN`. -/
def pybreaker_state_name : BreakerState → String
  | .closed => "closed"
  | .opened => "open"
  | .halfOpen => "half-open"

/-- The gauge value set by `LoggingBreakerListener.state_change`
(src/custom_api_client.py lines 234-244):
`{STATE_CLOSED: 0, STATE_OPEN: 1, STATE_HALF_OPEN: 2}.get(new_state, -1)`.
The dict's keys are the state-name strings, but the lookup key is the
`new_state` object itself, so the lookup always falls back to -1. -/
def custom_circuit_state_value (newState : BreakerState) : Int :=
  pyDictGet [(.pyStr "closed", 0), (.pyStr "open", 1), (.pyStr "half-open", 2)]
    (.pyStateObj newState) (-1)

/-- The gauge value set by `S3CircuitListener.state_change`
(src/s3_client.py lines 35-38):
`{'closed': 0, 'half_open': 1, 'open': 2}.get(new_state.name, -1)`.
Here the lookup key is the state's name string; note the dict key
`'half_open'` differs from pybreaker's state name `"half-open"`. -/
def s3_circuit_state_value (newState : BreakerState) : Int :=
  pyDictGet [(.pyStr "closed", 0), (.pyStr "half_open", 1), (.pyStr "open", 2)]
    (.pyStr (pybreaker_state_name newState)) (-1)

/-- The encoding named by the specification (section 6):
`breaker-state gauge (0=Closed, 1=Open, 2=HalfOpen)`. -/
def spec_gauge_encoding : BreakerState → Int
  | .closed => 0
  | .opened => 1
  | .halfOpen => 2

/-! ## `ApiClient._handle_response` (src/api_client.py lines 298-308) -/

/-- Python value returned by `_handle_response`: `None` for 204, a parsed
JSON document, or the raw body text. -/
inductive RespPayload where
  | pyNone
  | pyJson (j : JsonBody)
  | pyText (s : String)
deriving DecidableEq, Repr

/-- Whether `needle` is a prefix of `hay` (on character lists). -/
def charListIsPre : List Char → List Char → Bool
  | [], _ => true
  | _ :: _, [] => false
  | a :: as, b :: bs => a = b && charListIsPre as bs

/-- Whether `needle` occurs inside `hay` (on character lists): the Python
substring test `needle in hay`. -/
def charListContains (needle : List Char) : List Char → Bool
  | [] => charListIsPre needle []
  | c :: cs => charListIsPre needle (c :: cs) || charListContains needle cs

/-- The Python substring test `needle in hay` on strings. -/
def strContains (hay needle : String) : Bool :=
  charListContains needle.toList hay.toList

/-- Embedding of `ApiClient._handle_response`: `204 -> None`; otherwise read
`Content-Type` (default `""`), return `response.json()` when the header
contains `application/json`, and `response.text` otherwise or when
`response.json()` raises `ValueError` (the `except ValueError` branch). -/
def handle_response (r : HttpResponse) : RespPayload :=
  if r.status_code = 204 then .pyNone
  else
    let content_type := r.contentTypeHeader.getD ""
    if strContains content_type "application/json" then
      match r.jsonParse with
      | some j => .pyJson j
      | none => .pyText r.text
    else .pyText r.text

/-! ## `RelationalDbClient.fetch_one` (src/db_client.py lines 100-105) -/

/-- A database row as materialised by `_extract_rows`:
`dict(row._mapping)`, a mapping from column names to (rendered) values. -/
abbrev DbRow := List (String × String)

/-- A SQLAlchemy `CursorResult`, abstracted to what `_extract_rows` reads:
`returns_rows` and the iterated rows. -/
structure DbResult where
  returns_rows : Bool
  rows : List DbRow
deriving DecidableEq, Repr

/-- Embedding of `RelationalDbClient._extract_rows` (src/db_client.py lines 44-48):
empty when the result returns no rows, else all rows as dicts. -/
def extract_rows (result : DbResult) : List DbRow :=
  if !result.returns_rows then [] else result.rows

/-- What `fetch_one` produces for a given query result. -/
inductive FetchOneResult where
  | row (r : DbRow)
  | pyNone
  | indexError
deriving DecidableEq, Repr

/-- Embedding of the final step of `RelationalDbClient.fetch_one`:
`return self._extract_rows(result)[0]` — indexing `[0]` raises
`IndexError` on an empty list. -/
def fetch_one (result : DbResult) : FetchOneResult :=
  match extract_rows result with
  | [] => .indexError
  | r :: _ => .row r

/-- The clamp function named by the specification: `clamp(x, min_wait, max_wait)`,
the value `x` forced into `[min_wait, max_wait]` with the lower bound taking
priority. -/
def clampQ (x lo hi : ℚ) : ℚ := max lo (min x hi)

/-- A timed failing call: the wrapped attempt raises the given exception. -/
def failCall (c : ℤ × PyExc) : ℤ × Except PyExc (Option HttpResponse) :=
  (c.1, .error c.2)

end PyDI

namespace PyDI

/-! # Theorems -/

/-- Helper: a failure streak below the threshold keeps a Closed breaker
Closed and adds the streak length to `consecutive_failures`, leaving the
other fields unchanged. -/
theorem breakerFold_closed_streak (calls : List (ℤ × PyExc)) :
    ∀ b : Breaker, b.state = .closed →
      b.counter + calls.length < b.failMax →
      breakerFold b (calls.map failCall) =
        { b with counter := b.counter + calls.length } := by
  induction calls with
  | nil => intro b _ _; simp [breakerFold]
  | cons c rest ih =>
      intro b hb hlt
      have hstep : breakerCall b c.1 (.error c.2) =
          ⟨{ b with counter := b.counter + 1 }, true, .err c.2, []⟩ := by
        rw [breakerCall, hb]
        have : ¬ b.failMax ≤ b.counter + 1 := by
          simp only [List.length_cons] at hlt; omega
        simp [this]
      simp only [List.map_cons, breakerFold, List.foldl_cons, failCall, hstep]
      have := ih { b with counter := b.counter + 1 } hb
        (by simp only [List.length_cons] at hlt; simpa [Nat.add_assoc, Nat.add_comm 1] using hlt)
      simp only [breakerFold] at this
      rw [this]
      simp only [List.length_cons]
      congr 1
      omega

/-- Helper: `Retrying` never runs the wrapped attempt more than
`remaining + 1` times. -/
theorem runRetryGo_invocations_le (p : FAttempt → Except PyExc Bool) (w : Nat → ℚ)
    (bs : FAttempt → Except PyExc Nat) (fn : Nat → FAttempt) :
    ∀ (remaining k : Nat), (runRetryGo p w bs fn k remaining).invocations ≤ remaining + 1 := by
  intro remaining
  induction remaining with
  | zero =>
      intro k
      simp only [runRetryGo]
      split
      · exact Nat.le_refl 1
      · split <;> exact Nat.le_refl 1
      · split <;> exact Nat.le_refl 1
  | succ r ih =>
      intro k
      simp only [runRetryGo]
      split
      · exact Nat.le_succ_of_le (Nat.le_add_left 1 r)
      · split <;> exact Nat.le_succ_of_le (Nat.le_add_left 1 r)
      · split
        · exact Nat.le_succ_of_le (Nat.le_add_left 1 r)
        · have := ih (k + 1)
          simpa using Nat.add_le_add_right this 1

/-- Helper: every backoff delay recorded in a trace is the wait strategy
applied to the attempt number it was scheduled after, and those attempt
numbers count from the starting one. -/
theorem runRetryGo_delays_eq_wait (p : FAttempt → Except PyExc Bool) (w : Nat → ℚ)
    (bs : FAttempt → Except PyExc Nat) (fn : Nat → FAttempt) :
    ∀ (remaining k : Nat), ∀ kd ∈ (runRetryGo p w bs fn k remaining).delays,
      kd.2 = w kd.1 ∧ k ≤ kd.1 := by
  intro remaining
  induction remaining with
  | zero =>
      intro k kd hkd
      exfalso
      revert hkd
      simp only [runRetryGo]
      split
      · simp
      · split <;> simp
      · split <;> simp
  | succ r ih =>
      intro k kd hkd
      revert hkd
      simp only [runRetryGo]
      split
      · simp
      · split <;> simp
      · split
        · intro hkd
          simp only [List.mem_singleton] at hkd
          subst hkd
          exact ⟨rfl, Nat.le_refl k⟩
        · intro hkd
          simp only [List.mem_cons] at hkd
          rcases hkd with h | h
          · subst h; exact ⟨rfl, Nat.le_refl k⟩
          · have := ih (k + 1) kd h
            exact ⟨this.1, Nat.le_of_succ_le this.2⟩

/-- Helper: when every attempt yields a returned response with a 5xx
status, the loop runs all its attempts and ends in a `RetryError` wrapping
the last outcome; every retry pause performs one retry-counter
increment. -/
theorem runRetryGo_all_5xx (m lo hi : ℚ) (fn : Nat → FAttempt)
    (hfn : ∀ k, ∃ r : HttpResponse, fn k = .succeeded (some r) ∧ 500 ≤ r.status_code) :
    ∀ (remaining k : Nat),
      (runRetryGo build_retry_condition (wait_exponential m lo hi) build_before_sleep fn
          k remaining).result = .retryError (fn (k + remaining)) (k + remaining) ∧
      (runRetryGo build_retry_condition (wait_exponential m lo hi) build_before_sleep fn
          k remaining).invocations = remaining + 1 ∧
      (runRetryGo build_retry_condition (wait_exponential m lo hi) build_before_sleep fn
          k remaining).retryIncrements = remaining := by
  intro remaining
  induction remaining with
  | zero =>
      intro k
      obtain ⟨r, hr, h5⟩ := hfn k
      have hp : build_retry_condition (FAttempt.succeeded (some r)) = .ok true := by
        simp [build_retry_condition, retry_if_exception_type_RequestException,
          retry_if_result_ge500, h5]
      simp [runRetryGo, hr, hp]
  | succ rr ih =>
      intro k
      obtain ⟨r, hr, h5⟩ := hfn k
      have hp : build_retry_condition (FAttempt.succeeded (some r)) = .ok true := by
        simp [build_retry_condition, retry_if_exception_type_RequestException,
          retry_if_result_ge500, h5]
      have hbs : build_before_sleep (FAttempt.succeeded (some r)) = .ok 1 := by
        simp [build_before_sleep, log_retry_attempt_hook, custom_retry_metrics_hook,
          default_reason_resolver, futureResult, futureException, h5]
      have ihk := ih (k + 1)
      have harith : k + 1 + rr = k + (rr + 1) := by omega
      simp only [runRetryGo, hr, hp, hbs]
      refine ⟨?_, ?_, ?_⟩
      · rw [ihk.1, harith]
      · rw [ihk.2.1]
      · rw [ihk.2.2]

/-- Helper: a failure streak that exactly reaches the threshold opens a
Closed breaker, with `opened_at` set to the time of the last (threshold)
call. -/
theorem breakerFold_opens (calls : List (ℤ × PyExc)) :
    ∀ b : Breaker, b.state = .closed → calls ≠ [] →
      b.counter + calls.length = b.failMax →
      breakerFold b (calls.map failCall) =
        { b with state := .opened, counter := b.failMax,
                 openedAt := calls.getLast?.map Prod.fst } := by
  induction calls with
  | nil => intro b _ hne _; exact absurd rfl hne
  | cons c rest ih =>
      intro b hb _ hlen
      rcases rest with _ | ⟨c2, rest2⟩
      · have hcnt : b.counter + 1 = b.failMax := by simpa using hlen
        have hmax : b.failMax ≤ b.counter + 1 := by omega
        have hstep : breakerCall b c.1 (.error c.2) =
            ⟨{ b with state := .opened, counter := b.counter + 1, openedAt := some c.1 },
              true, .err c.2, [(.closed, .opened)]⟩ := by
          rw [breakerCall.eq_def, hb]
          simp [hmax]
        simp only [List.map_cons, List.map_nil, breakerFold, List.foldl_cons,
          List.foldl_nil, failCall, hstep]
        simp [hcnt]
      · have hstep : breakerCall b c.1 (.error c.2) =
            ⟨{ b with counter := b.counter + 1 }, true, .err c.2, []⟩ := by
          rw [breakerCall.eq_def, hb]
          have : ¬ b.failMax ≤ b.counter + 1 := by
            simp only [List.length_cons] at hlen; omega
          simp [this]
        simp only [List.map_cons, breakerFold, List.foldl_cons, failCall, hstep]
        have hrec := ih { b with counter := b.counter + 1 } hb (by simp)
          (by simp only [List.length_cons] at hlen ⊢; omega)
        simp only [breakerFold, List.map_cons, List.foldl_cons, failCall] at hrec
        rw [hrec]
        simp [List.getLast?_cons_cons]

/-- Helper: an Open breaker inside its cooldown window rejects the call
outright: the attempt is not invoked and `CircuitBreakerError` is
raised. -/
theorem breakerCall_open_rejects (b : Breaker) (now t0 : ℤ)
    (att : Except PyExc (Option HttpResponse))
    (hs : b.state = .opened) (ho : b.openedAt = some t0)
    (hc : now - t0 < b.resetTimeout) :
    breakerCall b now att = ⟨b, false, .breakerOpen, []⟩ := by
  rw [breakerCall.eq_def, hs, ho]
  simp [hc]

/-- Helper: looking up one key is unaffected by storing a breaker under a
different key. -/
theorem find_set_breaker_ne (bs : List (String × Breaker)) (key k2 : String)
    (b : Breaker) (h : k2 ≠ key) :
    find_breaker (set_breaker bs key b) k2 = find_breaker bs k2 := by
  induction bs with
  | nil => rfl
  | cons p rest ih =>
      by_cases hp : p.1 = key
      · have hk2 : ¬ key = k2 := fun he => h he.symm
        simp [set_breaker, find_breaker, hp, hk2] at ih ⊢
        simpa [set_breaker] using ih
      · by_cases hk : p.1 = k2
        · simp [set_breaker, find_breaker, hp, hk, h]
        · simp [set_breaker, find_breaker, hp, hk] at ih ⊢
          simpa [set_breaker] using ih

/-- Helper: looking up one key is unaffected by appending an entry for a
different key. -/
theorem find_append_single_ne (bs : List (String × Breaker)) (key k2 : String)
    (b : Breaker) (h : k2 ≠ key) :
    find_breaker (bs ++ [(key, b)]) k2 = find_breaker bs k2 := by
  induction bs with
  | nil =>
      have : ¬ key = k2 := fun he => h he.symm
      simp [find_breaker, this]
  | cons p rest ih =>
      by_cases hk : p.1 = k2
      · simp [find_breaker, hk]
      · simp [find_breaker, hk, ih]

/-- C2: the claim says `classify` is a pure function mapping a raised
timeout to `"timeout"`, a raised connection failure to
`"connection_error"`, other raised errors to their type name, and result
outcomes by status / application error code.  Evaluating the embedded
code: on every failed outcome `_default_reason_resolver` RE-RAISES the
stored exception (its line `result = retry_state.outcome.result() ...`
runs before the `if exc:` branch), so the exception branches are dead
code; the result-outcome branches behave as claimed, and only
`handle_retry_error` lower-cases a type name. -/
theorem c2_classifier_eval :
    default_reason_resolver (.failed requestsTimeout) = .error requestsTimeout ∧
    default_reason_resolver (.failed requestsConnectionError) = .error requestsConnectionError ∧
    default_reason_resolver (.failed requestsHTTPError) = .error requestsHTTPError ∧
    default_reason_resolver (.succeeded (some { status_code := 503 })) = .ok "5xx" ∧
    default_reason_resolver (.succeeded (some { status_code := 429 })) = .ok "rate_limit" ∧
    default_reason_resolver (.succeeded (some { status_code := 404 })) = .ok "status_404" ∧
    default_reason_resolver (.succeeded none) = .ok "unknown" ∧
    custom_reason_classifier
        (.succeeded (some { status_code := 200, jsonParse := some ⟨some "E42", ""⟩ })) =
      .ok "app_error_E42" ∧
    custom_reason_classifier (.failed requestsTimeout) = .error requestsTimeout ∧
    handle_retry_error_reason (.failed valueErrorExc) = "valueerror" ∧
    handle_retry_error_reason (.succeeded (some { status_code := 503 })) = "status_503" :=
  ⟨rfl, rfl, rfl, rfl, rfl, rfl, rfl, rfl, rfl, by decide, rfl⟩

/-- C7: the claim says every client's breaker-state gauge encodes the new
state as 0=Closed, 1=Open, 2=HalfOpen.  It fails for both clients: the
custom listener's dict is keyed by state-name strings but looked up with
the `CircuitBreakerState` object, and the S3 listener's `'half_open'` key
never matches pybreaker's state name `"half-open"`; at the Open state the
custom gauge yields -1, not 1, and the S3 gauge yields 2, not 1. -/
theorem c7_gauge_counterexample :
    ¬ (∀ s : BreakerState, custom_circuit_state_value s = spec_gauge_encoding s ∧
        s3_circuit_state_value s = spec_gauge_encoding s) := by
  intro h
  exact absurd (h .opened).2 (by decide)

/-- C7 (amended): neither client emits the claimed encoding.  The custom
API client's gauge is set to -1 on every state change (its dict lookup
key, the state object, never equals the string keys), and the S3 client's
gauge emits 0 for Closed and 2 for Open but -1 for HalfOpen (its
`'half_open'` key never matches the state name `"half-open"`). -/
theorem c7_gauge_encodings :
    (∀ s : BreakerState, custom_circuit_state_value s = -1) ∧
    s3_circuit_state_value .closed = 0 ∧
    s3_circuit_state_value .halfOpen = -1 ∧
    s3_circuit_state_value .opened = 2 := by
  refine ⟨?_, rfl, by decide, by decide⟩
  intro s
  cases s <;> rfl

/-- C8: under the no-retry policy an attempt that raises leads to exactly
one invocation, the original error is propagated directly (the no-retry
variant sets `reraise=True` and never wraps), and the retry counter is
never incremented. -/
theorem c8_no_retry (fn : Nat → FAttempt) (e : PyExc) (h : fn 1 = .failed e) :
    RetryPolicy_no_retry_call fn = ⟨.raised e, 1, 0, []⟩ := by
  show runRetryGo (fun _ => .ok false) (fun _ => 0) (fun _ => .ok 0) fn 1 0 = _
  simp only [runRetryGo, h]

/-- Witness for `c8_no_retry` at a concrete timeout-raising attempt. -/
theorem c8_no_retry_witness :
    ((fun _ : Nat => FAttempt.failed requestsTimeout) 1 = FAttempt.failed requestsTimeout) ∧
    RetryPolicy_no_retry_call (fun _ => .failed requestsTimeout) =
      ⟨.raised requestsTimeout, 1, 0, []⟩ :=
  ⟨rfl, c8_no_retry (fun _ => .failed requestsTimeout) requestsTimeout rfl⟩

/-- C9: `_handle_response` returns `None` for status 204; otherwise it
returns the parsed JSON body when the `Content-Type` header contains
`application/json` and parsing succeeds, and the raw text both when the
header is not JSON and when parsing raises `ValueError` — it never raises
while decoding a body (its decode step is total by the `except ValueError`
branch). -/
theorem c9_handle_response (r : HttpResponse) :
    (r.status_code = 204 → handle_response r = .pyNone) ∧
    (r.status_code ≠ 204 →
      (∀ j, strContains (r.contentTypeHeader.getD "") "application/json" = true →
        r.jsonParse = some j → handle_response r = .pyJson j) ∧
      ((strContains (r.contentTypeHeader.getD "") "application/json" = false ∨
        r.jsonParse = none) → handle_response r = .pyText r.text)) := by
  refine ⟨fun h => by simp [handle_response, h], fun h => ⟨?_, ?_⟩⟩
  · intro j hct hj
    simp [handle_response, h, hct, hj]
  · rintro (hct | hj)
    · simp [handle_response, h, hct]
    · rcases hct : strContains (r.contentTypeHeader.getD "") "application/json" with _ | _ <;>
        simp [handle_response, h, hct, hj]

/-- Witness for `c9_handle_response` at concrete responses: a 204, a JSON
success, and a body whose JSON parse raises. -/
theorem c9_handle_response_witness :
    handle_response { status_code := 204 } = .pyNone ∧
    handle_response { status_code := 200, contentTypeHeader := some "application/json; charset=utf8", jsonParse := some ⟨some "E1", "doc"⟩ } = .pyJson ⟨some "E1", "doc"⟩ ∧
    handle_response { status_code := 500, contentTypeHeader := some "application/json", text := "oops" } = .pyText "oops" :=
  ⟨(c9_handle_response _).1 rfl,
   ((c9_handle_response _).2 (by decide)).1 _ (by decide) rfl,
   ((c9_handle_response _).2 (by decide)).2 (Or.inr rfl)⟩

/-- C10: when a `fetch_one` query matches no rows, the trailing `[0]`
index raises `IndexError` (never returning `None` despite the `Optional`
annotation); with at least one matching row the first row is returned as
a dict. -/
theorem c10_fetch_one (res : DbResult) (h : res.returns_rows = true) :
    (res.rows = [] → fetch_one res = .indexError) ∧
    (∀ r t, res.rows = r :: t → fetch_one res = .row r) ∧
    (∀ res' : DbResult, fetch_one res' ≠ .pyNone) := by
  refine ⟨?_, ?_, ?_⟩
  · intro he; simp [fetch_one, extract_rows, h, he]
  · intro r t he; simp [fetch_one, extract_rows, h, he]
  · intro res'
    cases hrows : extract_rows res' <;> simp [fetch_one, hrows]

/-- Witness for `c10_fetch_one` at a concrete empty and non-empty query
result. -/
theorem c10_fetch_one_witness :
    ((⟨true, []⟩ : DbResult).returns_rows = true) ∧
    fetch_one ⟨true, []⟩ = .indexError ∧
    fetch_one ⟨true, [[("id", "2")]]⟩ = .row [("id", "2")] :=
  ⟨rfl, (c10_fetch_one ⟨true, []⟩ rfl).1 rfl,
    (c10_fetch_one ⟨true, [[("id", "2")]]⟩ rfl).2.1 _ _ rfl⟩

/-- C1 (counterexample): the claim "the default retry decision is true iff
the classifier maps the outcome to timeout, connection_error or 5xx"
fails: a raised `requests.HTTPError` is a `RequestException`, so
`retry_if_exception_type` retries it, yet the classifier does not map it
to any of those three reasons. -/
theorem c1_retry_decision_counterexample :
    ¬ (∀ o : FAttempt, build_retry_condition o = .ok true ↔
        (default_reason_resolver o = .ok "timeout" ∨
         default_reason_resolver o = .ok "connection_error" ∨
         default_reason_resolver o = .ok "5xx")) := by
  intro h
  have h2 := (h (.failed requestsHTTPError)).mp rfl
  rcases h2 with h2 | h2 | h2 <;> exact Except.noConfusion h2

/-- C1 (amended): the default retry decision is true exactly when the
outcome is a raised `requests.RequestException` (of any subtype) or a
returned response with a 5xx status; hence timeouts, connection errors and
5xx are retried, but so is any other `RequestException`, while a 429
rate-limit response is never retried, and a non-`RequestException` error
is propagated on its first occurrence without any retry. -/
theorem c1_retry_decision :
    (∀ o : FAttempt, build_retry_condition o = .ok true ↔
        ((∃ e, o = .failed e ∧ e.isRequestException = true) ∨
         (∃ r : HttpResponse, o = .succeeded (some r) ∧ 500 ≤ r.status_code))) ∧
    (∀ r : HttpResponse, r.status_code = 429 →
        build_retry_condition (.succeeded (some r)) = .ok false) ∧
    (∀ (attempts : Nat) (m lo hi : ℚ) (fn : Nat → FAttempt) (e : PyExc),
        fn 1 = .failed e → e.isRequestException = false →
        RetryPolicy_build_call attempts m lo hi fn = ⟨.raised e, 1, 0, []⟩) := by
  refine ⟨?_, ?_, ?_⟩
  · intro o
    rcases o with e | v
    · rcases he : e.isRequestException with _ | _
      · simp [build_retry_condition, retry_if_exception_type_RequestException,
          retry_if_result_ge500, he]
      · simp [build_retry_condition, retry_if_exception_type_RequestException, he]
    · rcases v with _ | r
      · simp [build_retry_condition, retry_if_exception_type_RequestException,
          retry_if_result_ge500]
      · simp [build_retry_condition, retry_if_exception_type_RequestException,
          retry_if_result_ge500]
  · intro r h
    simp [build_retry_condition, retry_if_exception_type_RequestException,
      retry_if_result_ge500, h]
  · intro attempts m lo hi fn e h1 hreq
    have hp : build_retry_condition (FAttempt.failed e) = .ok false := by
      simp [build_retry_condition, retry_if_exception_type_RequestException,
        retry_if_result_ge500, hreq]
    show runRetryGo build_retry_condition (wait_exponential m lo hi) build_before_sleep
        fn 1 (attempts - 1) = _
    cases hrem : attempts - 1 with
    | zero => simp only [runRetryGo, h1, hp]
    | succ r => simp only [runRetryGo, h1, hp]

/-- Witness for `c1_retry_decision`: a 429 response is not retried, a
plain `ValueError` propagates after a single invocation, and a raised
timeout is retried. -/
theorem c1_retry_decision_witness :
    (({ status_code := 429 } : HttpResponse).status_code = 429) ∧
    build_retry_condition (.succeeded (some { status_code := 429 })) = .ok false ∧
    ((fun _ : Nat => FAttempt.failed valueErrorExc) 1 = FAttempt.failed valueErrorExc) ∧
    valueErrorExc.isRequestException = false ∧
    RetryPolicy_build_call 3 1 2 10 (fun _ => .failed valueErrorExc) =
      ⟨.raised valueErrorExc, 1, 0, []⟩ ∧
    build_retry_condition (.failed requestsTimeout) = .ok true :=
  ⟨rfl, c1_retry_decision.2.1 _ rfl, rfl, rfl,
    c1_retry_decision.2.2 3 1 2 10 _ valueErrorExc rfl rfl,
    (c1_retry_decision.1 _).mpr (Or.inl ⟨requestsTimeout, rfl, rfl⟩)⟩

/-- C4: the backoff delay scheduled after attempt `k` equals
`clamp(multiplier * 2^(k-1), min_wait, max_wait)` and, whenever
`0 ≤ min_wait ≤ max_wait`, always lies within `[min_wait, max_wait]` —
both for the wait strategy itself and for every delay recorded in a
`RetryPolicy.build` call trace. -/
theorem c4_backoff (m lo hi : ℚ) (k : Nat) (h0 : 0 ≤ lo) (h1 : lo ≤ hi) (_hk : 1 ≤ k) :
    wait_exponential m lo hi k = clampQ (m * 2 ^ (k - 1)) lo hi ∧
    lo ≤ wait_exponential m lo hi k ∧
    wait_exponential m lo hi k ≤ hi ∧
    (∀ (N : Nat) (fn : Nat → FAttempt) (kd : Nat × ℚ),
      kd ∈ (RetryPolicy_build_call N m lo hi fn).delays →
      kd.2 = clampQ (m * 2 ^ (kd.1 - 1)) lo hi ∧ lo ≤ kd.2 ∧ kd.2 ≤ hi) := by
  have hmax0 : max (0:ℚ) lo = lo := max_eq_right h0
  have heq : ∀ j : Nat, wait_exponential m lo hi j = clampQ (m * 2 ^ (j - 1)) lo hi := by
    intro j
    simp [wait_exponential, clampQ, hmax0]
  have hlow : ∀ j : Nat, lo ≤ wait_exponential m lo hi j := by
    intro j
    rw [heq]
    exact le_max_left _ _
  have hhigh : ∀ j : Nat, wait_exponential m lo hi j ≤ hi := by
    intro j
    rw [heq]
    exact max_le h1 (min_le_right _ _)
  refine ⟨heq k, hlow k, hhigh k, ?_⟩
  intro N fn kd hkd
  have hd := runRetryGo_delays_eq_wait build_retry_condition (wait_exponential m lo hi)
    build_before_sleep fn (N - 1) 1 kd hkd
  refine ⟨?_, ?_, ?_⟩
  · rw [hd.1, heq]
  · rw [hd.1]; exact hlow kd.1
  · rw [hd.1]; exact hhigh kd.1

/-- Witness for `c4_backoff` at the default policy parameters
(`multiplier=1, min_wait=2, max_wait=10`) and attempt 3. -/
theorem c4_backoff_witness :
    ((0:ℚ) ≤ 2) ∧ ((2:ℚ) ≤ 10) ∧ (1 ≤ 3) ∧
    (wait_exponential 1 2 10 3 = clampQ (1 * 2 ^ (3 - 1)) 2 10 ∧
     (2:ℚ) ≤ wait_exponential 1 2 10 3 ∧
     wait_exponential 1 2 10 3 ≤ 10 ∧
     (∀ (N : Nat) (fn : Nat → FAttempt) (kd : Nat × ℚ),
        kd ∈ (RetryPolicy_build_call N 1 2 10 fn).delays →
        kd.2 = clampQ (1 * 2 ^ (kd.1 - 1)) 2 10 ∧ (2:ℚ) ≤ kd.2 ∧ kd.2 ≤ 10)) :=
  ⟨by decide, by decide, by decide, c4_backoff 1 2 10 3 (by decide) (by decide) (by decide)⟩

/-- C5 (counterexample): the claim "when every outcome is classified
retryable, `attempt` is invoked exactly N times and then the
retry-exhausted error is raised" fails for retryable raised exceptions:
with `max_attempts = 3` and every attempt raising `requests.Timeout`, the
before-sleep logging hook calls `outcome.result()` during the first retry
pause, re-raising the timeout after a single invocation. -/
theorem c5_exhaustion_counterexample :
    ¬ (∀ (N : Nat) (m lo hi : ℚ) (fn : Nat → FAttempt), 1 ≤ N →
        (∀ k, build_retry_condition (fn k) = .ok true) →
        (RetryPolicy_build_call N m lo hi fn).invocations = N ∧
        (RetryPolicy_build_call N m lo hi fn).result = .retryError (fn N) N) := by
  intro h
  have h2 := h 3 1 2 10 (fun _ => .failed requestsTimeout) (by decide) (fun _ => rfl)
  have h3 : (RetryPolicy_build_call 3 1 2 10 (fun _ => .failed requestsTimeout)).invocations = 1 := rfl
  rw [h2.1] at h3
  exact absurd h3 (by decide)

/-- C5 (amended): a `RetryPolicy.build` call never invokes the attempt
more than `max_attempts` times; when every outcome is a retryable 5xx
response it invokes it exactly N times then raises the retry-exhausted
`RetryError` carrying the Nth outcome and the attempt count, incrementing
the retry counter N-1 times; when the attempts raise a retryable
exception, the before-sleep logging hook re-raises the first exception
after a single invocation. -/
theorem c5_attempt_budget :
    (∀ (N : Nat) (m lo hi : ℚ) (fn : Nat → FAttempt), 1 ≤ N →
        (RetryPolicy_build_call N m lo hi fn).invocations ≤ N) ∧
    (∀ (N : Nat) (m lo hi : ℚ) (fn : Nat → FAttempt), 1 ≤ N →
        (∀ k, ∃ r : HttpResponse, fn k = .succeeded (some r) ∧ 500 ≤ r.status_code) →
        (RetryPolicy_build_call N m lo hi fn).result = .retryError (fn N) N ∧
        (RetryPolicy_build_call N m lo hi fn).invocations = N ∧
        (RetryPolicy_build_call N m lo hi fn).retryIncrements = N - 1) ∧
    (∀ (N : Nat) (m lo hi : ℚ) (fn : Nat → FAttempt) (e : PyExc), 2 ≤ N →
        fn 1 = .failed e → e.isRequestException = true →
        RetryPolicy_build_call N m lo hi fn =
          ⟨.raised e, 1, 0, [(1, wait_exponential m lo hi 1)]⟩) := by
  refine ⟨?_, ?_, ?_⟩
  · intro N m lo hi fn hN
    have hb := runRetryGo_invocations_le build_retry_condition (wait_exponential m lo hi)
      build_before_sleep fn (N - 1) 1
    calc (RetryPolicy_build_call N m lo hi fn).invocations
        ≤ (N - 1) + 1 := hb
      _ = N := by omega
  · intro N m lo hi fn hN hfn
    have h := runRetryGo_all_5xx m lo hi fn hfn (N - 1) 1
    have hN1 : 1 + (N - 1) = N := by omega
    rw [hN1] at h
    refine ⟨h.1, ?_, h.2.2⟩
    show (runRetryGo build_retry_condition (wait_exponential m lo hi) build_before_sleep
        fn 1 (N - 1)).invocations = N
    rw [h.2.1]
    omega
  · intro N m lo hi fn e hN h1 hreq
    have hp : build_retry_condition (FAttempt.failed e) = .ok true := by
      simp [build_retry_condition, retry_if_exception_type_RequestException, hreq]
    have hbs : build_before_sleep (FAttempt.failed e) = .error e := rfl
    obtain ⟨r, hr⟩ : ∃ r, N - 1 = r + 1 := ⟨N - 2, by omega⟩
    show runRetryGo build_retry_condition (wait_exponential m lo hi) build_before_sleep
        fn 1 (N - 1) = _
    rw [hr]
    simp only [runRetryGo, h1, hp, hbs]

/-- Witness for `c5_attempt_budget`: the default policy with three
attempts against a constant 503 responder, and against a constant
timeout raiser. -/
theorem c5_attempt_budget_witness :
    (1 ≤ 3) ∧
    (RetryPolicy_build_call 3 1 2 10
        (fun _ => .succeeded (some ⟨503, none, true, none, ""⟩))).invocations ≤ 3 ∧
    (RetryPolicy_build_call 3 1 2 10
        (fun _ => .succeeded (some ⟨503, none, true, none, ""⟩))).result =
      .retryError (.succeeded (some ⟨503, none, true, none, ""⟩)) 3 ∧
    (2 ≤ 3) ∧
    RetryPolicy_build_call 3 1 2 10 (fun _ => .failed requestsTimeout) =
      ⟨.raised requestsTimeout, 1, 0, [(1, wait_exponential 1 2 10 1)]⟩ :=
  ⟨by decide,
   c5_attempt_budget.1 3 1 2 10 _ (by decide),
   (c5_attempt_budget.2.1 3 1 2 10 _ (by decide)
      (fun _ => ⟨⟨503, none, true, none, ""⟩, rfl, by decide⟩)).1,
   by decide,
   c5_attempt_budget.2.2 3 1 2 10 _ requestsTimeout (by decide) rfl rfl⟩

/-- Helper: the transitions fired by any single breaker call never include
a direct Open-to-Closed step, and they always chain the state before the
call to the state after it. -/
theorem breakerCall_events_sound (b : Breaker) (now : ℤ)
    (att : Except PyExc (Option HttpResponse)) :
    (BreakerState.opened, BreakerState.closed) ∉ (breakerCall b now att).events ∧
    eventsChain b.state (breakerCall b now att).events
      (breakerCall b now att).breaker.state = true := by
  obtain ⟨st, c, fm, rt, oa⟩ := b
  rcases st
  case closed =>
    rcases att with e | v
    · by_cases hm : fm ≤ c + 1 <;>
        simp [breakerCall.eq_def, hm, eventsChain]
    · simp [breakerCall.eq_def, eventsChain]
  case opened =>
    rcases oa with _ | t0
    · simp [breakerCall.eq_def, eventsChain]
    · by_cases ht : now - t0 < rt
      · simp [breakerCall.eq_def, ht, eventsChain]
      · rcases att with e | v <;>
          simp [breakerCall.eq_def, ht, eventsChain]
  case halfOpen =>
    rcases att with e | v <;> simp [breakerCall.eq_def, eventsChain]

/-- C3: a breaker with `fail_max = F` is opened by exactly F consecutive
failing calls (every shorter streak leaves it Closed); the next call on
the same key within the cooldown is rejected with `CircuitBreakerError`
without the attempt being invoked; and the per-key registry leaves every
other key untouched — a call on a different, fresh key runs its attempt
normally. -/
theorem c3_breaker_opens_and_rejects :
    (∀ (F : Nat) (rT : ℤ) (calls : List (ℤ × PyExc)), 1 ≤ F → calls.length = F →
        (∀ j, j < F →
          (breakerFold (Breaker.new F rT) ((calls.take j).map failCall)).state = .closed) ∧
        breakerFold (Breaker.new F rT) (calls.map failCall) =
          { Breaker.new F rT with state := .opened, counter := F, openedAt := calls.getLast?.map Prod.fst }) ∧
    (∀ (b : Breaker) (now t0 : ℤ) (att : Except PyExc (Option HttpResponse)),
        b.state = .opened → b.openedAt = some t0 → now - t0 < b.resetTimeout →
        (breakerCall b now att).invoked = false ∧
        (breakerCall b now att).result = .breakerOpen) ∧
    (∀ (regs : List (String × Breaker)) (K K2 : String) (now : ℤ)
        (att : Except PyExc (Option HttpResponse)), K2 ≠ K →
        find_breaker (call_with_breaker regs K now att).1 K2 = find_breaker regs K2) ∧
    (∀ (regs : List (String × Breaker)) (K2 : String) (t : ℤ) (v : Option HttpResponse),
        find_breaker regs K2 = none →
        (call_with_breaker regs K2 t (.ok v)).2.invoked = true ∧
        (call_with_breaker regs K2 t (.ok v)).2.result = .ok v) := by
  refine ⟨?_, ?_, ?_, ?_⟩
  · intro F rT calls hF hlen
    constructor
    · intro j hj
      have hstreak := breakerFold_closed_streak (calls.take j) (Breaker.new F rT) rfl
        (by simp [Breaker.new, List.length_take, hlen]; omega)
      rw [hstreak]
      rfl
    · have hne : calls ≠ [] := by
        intro hnil
        rw [hnil] at hlen
        simp at hlen
        omega
      exact breakerFold_opens calls (Breaker.new F rT) rfl hne (by simp [Breaker.new, hlen])
  · intro b now t0 att hs ho hc
    rw [breakerCall_open_rejects b now t0 att hs ho hc]
    exact ⟨rfl, rfl⟩
  · intro regs K K2 now att hne
    unfold call_with_breaker get_breaker
    cases hf : find_breaker regs K with
    | some b => simp [find_set_breaker_ne _ _ _ _ hne]
    | none => simp [find_set_breaker_ne _ _ _ _ hne, find_append_single_ne _ _ _ _ hne]
  · intro regs K2 t v hf
    unfold call_with_breaker get_breaker
    rw [hf]
    simp [breakerCall.eq_def, Breaker.new]

/-- Witness for `c3_breaker_opens_and_rejects` at `fail_max=3`,
`reset_timeout=300` (the values of `_get_breaker`), a streak of three
failing calls at times 0, 1, 2, a rejected call, and a fresh second key. -/
theorem c3_breaker_opens_and_rejects_witness :
    (1 ≤ 3) ∧ (([((0:ℤ), valueErrorExc), (1, valueErrorExc), (2, valueErrorExc)]).length = 3) ∧
    breakerFold (Breaker.new 3 300)
        ([((0:ℤ), valueErrorExc), (1, valueErrorExc), (2, valueErrorExc)].map failCall) =
      { Breaker.new 3 300 with state := .opened, counter := 3, openedAt := some 2 } ∧
    ((⟨.opened, 3, 3, 300, some 2⟩ : Breaker).state = .opened) ∧
    ((3:ℤ) - 2 < 300) ∧
    (breakerCall ⟨.opened, 3, 3, 300, some 2⟩ 3 (.ok none)).invoked = false ∧
    (breakerCall ⟨.opened, 3, 3, 300, some 2⟩ 3 (.ok none)).result = .breakerOpen ∧
    (("K2" : String) ≠ "K") ∧
    find_breaker (call_with_breaker [("K", ⟨.opened, 3, 3, 300, some 2⟩)] "K" 3 (.ok none)).1 "K2" =
      find_breaker [("K", ⟨.opened, 3, 3, 300, some 2⟩)] "K2" ∧
    (find_breaker [("K", (⟨.opened, 3, 3, 300, some 2⟩ : Breaker))] "K2" = none) ∧
    (call_with_breaker [("K", ⟨.opened, 3, 3, 300, some 2⟩)] "K2" 3 (.ok none)).2.invoked = true ∧
    (call_with_breaker [("K", ⟨.opened, 3, 3, 300, some 2⟩)] "K2" 3 (.ok none)).2.result = .ok none := by
  have hmain := c3_breaker_opens_and_rejects
  have h1 := hmain.1 3 300 [((0:ℤ), valueErrorExc), (1, valueErrorExc), (2, valueErrorExc)]
    (by decide) rfl
  have h2 := hmain.2.1 ⟨.opened, 3, 3, 300, some 2⟩ 3 2 (.ok none) rfl rfl (by decide)
  have h3 := hmain.2.2.1 [("K", ⟨.opened, 3, 3, 300, some 2⟩)] "K" "K2" 3 (.ok none) (by decide)
  have h4 := hmain.2.2.2 [("K", ⟨.opened, 3, 3, 300, some 2⟩)] "K2" 3 none (by decide)
  exact ⟨by decide, rfl, h1.2, rfl, by decide, h2.1, h2.2, by decide, h3, by decide, h4.1, h4.2⟩

/-- C6: a successful HalfOpen trial closes the breaker and resets its
failure counter to 0; a failed trial reopens it with the cooldown clock
restarted at the trial time; and no call ever fires a direct Open→Closed
transition — the fired transitions always chain the pre-call state to the
post-call state, so moving from Open to Closed passes through HalfOpen. -/
theorem c6_half_open_trial :
    (∀ (b : Breaker) (now : ℤ) (v : Option HttpResponse), b.state = .halfOpen →
        breakerCall b now (.ok v) =
          ⟨{ b with state := .closed, counter := 0, openedAt := none }, true, .ok v,
            [(.halfOpen, .closed)]⟩) ∧
    (∀ (b : Breaker) (now : ℤ) (e : PyExc), b.state = .halfOpen →
        breakerCall b now (.error e) =
          ⟨{ b with state := .opened, openedAt := some now }, true, .err e,
            [(.halfOpen, .opened)]⟩) ∧
    (∀ (b : Breaker) (now : ℤ) (att : Except PyExc (Option HttpResponse)),
        (BreakerState.opened, BreakerState.closed) ∉ (breakerCall b now att).events) ∧
    (∀ (b : Breaker) (now : ℤ) (att : Except PyExc (Option HttpResponse)),
        eventsChain b.state (breakerCall b now att).events
          (breakerCall b now att).breaker.state = true) := by
  refine ⟨?_, ?_, fun b now att => (breakerCall_events_sound b now att).1,
    fun b now att => (breakerCall_events_sound b now att).2⟩
  · intro b now v hs
    rw [breakerCall.eq_def, hs]
  · intro b now e hs
    rw [breakerCall.eq_def, hs]

/-- Witness for `c6_half_open_trial` at a concrete HalfOpen breaker: one
successful trial and one failing trial. -/
theorem c6_half_open_trial_witness :
    ((⟨.halfOpen, 3, 3, 300, some 0⟩ : Breaker).state = .halfOpen) ∧
    breakerCall ⟨.halfOpen, 3, 3, 300, some 0⟩ 400 (.ok none) =
      ⟨⟨.closed, 0, 3, 300, none⟩, true, .ok none, [(.halfOpen, .closed)]⟩ ∧
    breakerCall ⟨.halfOpen, 3, 3, 300, some 0⟩ 400 (.error valueErrorExc) =
      ⟨⟨.opened, 3, 3, 300, some 400⟩, true, .err valueErrorExc, [(.halfOpen, .opened)]⟩ :=
  ⟨rfl,
   c6_half_open_trial.1 ⟨.halfOpen, 3, 3, 300, some 0⟩ 400 none rfl,
   c6_half_open_trial.2.1 ⟨.halfOpen, 3, 3, 300, some 0⟩ 400 valueErrorExc rfl⟩
